import Mathlib

/-!
Verification development for the corestoreio/csfw scope-resolving configuration
service. The definitions embed, in order:

* the error taxonomy of util/errors (absent from the sources, modelled from spec sect. 7);
* the Scope primitive and the Perm bit-sets of store/scope (scope.go is absent from the
  sources; the enumeration values are fixed by the test file src/unnamed/part_012 and the
  reverse permission sets are modelled from spec sect. 4.1 and 4.5);
* the Hash encoding of store/scope/hash.go (present in the sources, embedded line by line);
* the cfgpath package (absent from the sources, modelled from spec sect. 3 and 4.3);
* the Scoped resolver of config (src/unnamed/part_000, embedded line by line);
* the scoped-config cache of net/ctxcors/service.go (present in the sources; its
  scopedConfig type and functional options are modelled from spec sect. 3 and 4.6).

A Go Scope is a uint8 and a Go Hash is a uint32; both are embedded as Nat (every hash the
embedded operations produce is below 2 ^ 32, and scope bytes are guarded against 255
exactly as in the source). Go int64 values are embedded as Int. Wherever the Go code
relies on the fixed width the relevant guard or masking is written out explicitly.
-/

/-- Modelled from the spec: the error taxonomy of the absent util/errors package
(spec sect. 7): NotFound, NotValid, NotSupported and Empty behaviours, plus wrapping
that preserves the underlying behaviour classification (spec sect. 7, propagation
policy: collaborators wrap core errors with contextual prefixes but preserve the
error-kind classification). -/
inductive Err where
  | notFound (msg : String)
  | notValid (msg : String)
  | notSupported (msg : String)
  | emptyArg (msg : String)
  | other (msg : String)
  | wrap (msg : String) (e : Err)
deriving DecidableEq

/-- Behaviour test IsNotFound of util/errors: unwraps through wrapping layers. -/
def Err.isNotFound : Err → Bool
  | .notFound _ => true
  | .wrap _ e => e.isNotFound
  | _ => false

/-- Behaviour test IsNotValid of util/errors: unwraps through wrapping layers. -/
def Err.isNotValid : Err → Bool
  | .notValid _ => true
  | .wrap _ e => e.isNotValid
  | _ => false

/-- Go errors may be nil, embedded as Option Err; errors.IsNotFound(nil) is false. -/
def isNotFoundO : Option Err → Bool
  | none => false
  | some e => e.isNotFound

/-- Absent scope, iota value 0 of the Go Scope uint8 enumeration
(fixed by the test file src/unnamed/part_012). -/
def Scope.Absent : Nat := 0

/-- Default scope, iota value 1 (fixed by the test file src/unnamed/part_012). -/
def Scope.Default : Nat := 1

/-- Website scope, iota value 2 (fixed by the test file src/unnamed/part_012). -/
def Scope.Website : Nat := 2

/-- Group scope, iota value 3 (fixed by the test file src/unnamed/part_012). -/
def Scope.Group : Nat := 3

/-- Store scope, iota value 4 (fixed by the test file src/unnamed/part_012). -/
def Scope.Store : Nat := 4

/-- Membership test Perm.Has of the scope bit-sets: bits AND (1 shl scope) is non-zero
(semantics fixed by TestScopeBits in src/unnamed/part_012: Perm(0).Set(s) sets bit
1 shl s). -/
def permHas (p : Nat) (s : Nat) : Bool := (p &&& (1 <<< s)) != 0

/-- Modelled from the spec: scope.PermStoreReverse (scope.go is absent from the sources).
Spec sect. 4.5 step 3: the Store attempt is permitted only when the effective scope is
permitted to reach Store, and P3 requires that a Website restriction skips the Store
attempt, so the reverse set for Store contains exactly the Store scope. -/
def PermStoreReverse : Nat := 1 <<< Scope.Store

/-- Modelled from the spec: scope.PermWebsiteReverse (scope.go is absent from the sources).
Spec sect. 4.5 step 4 together with P1: a Store-scoped resolver still attempts Website, and
a Website restriction attempts Website, so the reverse set for Website contains Website and
Store. -/
def PermWebsiteReverse : Nat := (1 <<< Scope.Website) ||| (1 <<< Scope.Store)

/-- Constant maxUint8 of the absent scope.go, referenced by hash.go: the largest uint8. -/
def maxUint8 : Nat := 255

/-- MaxStoreID of store/scope/hash.go line 25: 1 shl 23 - 1 as an int64. -/
def MaxStoreID : Int := 2 ^ 23 - 1

/-- DefaultHash of store/scope/hash.go line 29: Hash(Default) shl 24 or 0. -/
def DefaultHash : Nat := Scope.Default <<< 24 ||| 0

/-- Hash.Unpack of store/scope/hash.go lines 74-90, returning (scope, id). The guard
prospectS < 0 of the source is vacuous on a uint32 and the int64 conversion of a uint32
is the identity, so the arithmetic is carried out on Nat; the xor and the shifts are kept
literally. The guard prospectID < 0 of the source is likewise vacuous because the xor of
the two non-negative int64 values is non-negative. -/
def hashUnpack (h : Nat) : Nat × Int :=
  let prospectS := h >>> 24
  if maxUint8 < prospectS then (Scope.Absent, -1)
  else
    let prospectID : Nat := h ^^^ ((h >>> 24) <<< 24)
    if MaxStoreID < (prospectID : Int) then (Scope.Absent, -1)
    else (prospectS, (prospectID : Int))

/-- Hash.EqualScope of store/scope/hash.go lines 95-105: compares only the scope bytes;
hScope <= 0 on a uint32 means hScope = 0. -/
def hashEqualScope (h other : Nat) : Bool :=
  let hScope := h >>> 24
  if maxUint8 < hScope ∨ hScope = 0 then false
  else
    let oScope := other >>> 24
    if maxUint8 < oScope ∨ oScope = 0 then false
    else hScope == oScope

/-- Hash.Scope of store/scope/hash.go lines 108-114 (the guard hScope < 0 is vacuous). -/
def hashScope (h : Nat) : Nat :=
  let hScope := h >>> 24
  if maxUint8 < hScope then Scope.Absent else hScope

/-- Hash.ID of store/scope/hash.go lines 118-125. -/
def hashID (h : Nat) : Int :=
  let prospectID : Nat := h ^^^ ((h >>> 24) <<< 24)
  if MaxStoreID < (prospectID : Int) then -1 else (prospectID : Int)

/-- Hash.ValidParent of store/scope/hash.go lines 129-135: h is the child hash. -/
def hashValidParent (h parent : Nat) : Bool :=
  let pu := hashUnpack parent
  let cu := hashUnpack h
  if (pu.1 = Scope.Default ∧ pu.2 = 0 ∧ cu.1 = Scope.Default ∧ cu.2 = 0) ∨
     (pu.1 = Scope.Default ∧ pu.2 = 0 ∧ cu.1 = Scope.Website ∧ 0 ≤ cu.2) ∨
     (pu.1 = Scope.Website ∧ 0 ≤ pu.2 ∧ cu.1 = Scope.Store ∧ 0 ≤ cu.2)
  then true else false

/-- NewHash of store/scope/hash.go lines 157-165. After the guards the id converted to a
uint32 is non-negative, so Int.toNat is the exact image of the Go conversion. -/
def NewHash (s : Nat) (id : Int) : Nat :=
  if MaxStoreID < id ∨ (Scope.Default < s ∧ id < 0) then 0
  else
    let id := if s < Scope.Website then 0 else id
    s <<< 24 ||| id.toNat

theorem xor_shift_low (h n : Nat) : h ^^^ ((h >>> n) <<< n) = h % 2 ^ n := by
  apply Nat.eq_of_testBit_eq
  intro i
  rw [Nat.testBit_xor, Nat.testBit_shiftLeft, Nat.testBit_shiftRight,
    Nat.testBit_mod_two_pow]
  by_cases hin : n ≤ i
  · have h2 : n + (i - n) = i := by omega
    simp [hin, h2, Nat.not_lt.mpr hin]
  · simp [hin, Nat.not_le.mp hin]

theorem shiftRight_or_low (s id n : Nat) (hid : id < 2 ^ n) :
    (s <<< n ||| id) >>> n = s := by
  apply Nat.eq_of_testBit_eq
  intro i
  rw [Nat.testBit_shiftRight, Nat.testBit_lor, Nat.testBit_shiftLeft]
  have hfalse : id.testBit (n + i) = false :=
    Nat.testBit_eq_false_of_lt (lt_of_lt_of_le hid (Nat.pow_le_pow_right (by omega) (by omega)))
  have h2 : n + i - n = i := by omega
  simp [hfalse, h2]

theorem mod_or_low (s id n : Nat) (hid : id < 2 ^ n) :
    (s <<< n ||| id) % 2 ^ n = id := by
  apply Nat.eq_of_testBit_eq
  intro i
  rw [Nat.testBit_mod_two_pow, Nat.testBit_lor, Nat.testBit_shiftLeft]
  by_cases hin : i < n
  · simp [hin, Nat.not_le.mpr hin]
  · have hfalse : id.testBit i = false :=
      Nat.testBit_eq_false_of_lt (lt_of_lt_of_le hid (Nat.pow_le_pow_right (by omega) (by omega)))
    simp [hin, hfalse]

theorem recompose_or (h n : Nat) : (h >>> n) <<< n ||| h % 2 ^ n = h := by
  apply Nat.eq_of_testBit_eq
  intro i
  rw [Nat.testBit_lor, Nat.testBit_shiftLeft, Nat.testBit_mod_two_pow]
  by_cases hin : n ≤ i
  · have h2 : n + (i - n) = i := by omega
    rw [Nat.testBit_shiftRight, h2]
    simp [hin, Nat.not_lt.mpr hin]
  · simp [hin, Nat.not_le.mp hin]

theorem hashUnpack_spec (h : Nat) :
    hashUnpack h =
      if maxUint8 < h >>> 24 ∨ MaxStoreID < ((h % 2 ^ 24 : Nat) : Int)
      then (Scope.Absent, -1)
      else (h >>> 24, ((h % 2 ^ 24 : Nat) : Int)) := by
  unfold hashUnpack
  rw [xor_shift_low]
  by_cases h1 : maxUint8 < h >>> 24
  · simp [h1]
  · by_cases h2 : MaxStoreID < ((h % 2 ^ 24 : Nat) : Int) <;> simp [h1, h2]

theorem hashUnpack_packed (s : Nat) (id : Nat) (hid : id < 2 ^ 24) :
    hashUnpack (s <<< 24 ||| id) =
      if maxUint8 < s ∨ MaxStoreID < (id : Int)
      then (Scope.Absent, -1)
      else (s, (id : Int)) := by
  rw [hashUnpack_spec, shiftRight_or_low s id 24 hid, mod_or_low s id 24 hid]

theorem NewHash_high_eq (s : Nat) (hs1 : Scope.Website ≤ s)
    (id : Int) (h0 : 0 ≤ id) (h1 : id ≤ MaxStoreID) :
    NewHash s id = s <<< 24 ||| id.toNat := by
  have hguard : ¬ (MaxStoreID < id ∨ (Scope.Default < s ∧ id < 0)) := by
    push_neg
    exact ⟨not_lt.mp (by omega), fun _ => by omega⟩
  have hlow : ¬ s < Scope.Website := not_lt.mpr hs1
  unfold NewHash
  rw [if_neg hguard, if_neg hlow]

theorem hashUnpack_NewHash_high (s : Nat) (hs1 : Scope.Website ≤ s) (hs2 : s ≤ maxUint8)
    (id : Int) (h0 : 0 ≤ id) (h1 : id ≤ MaxStoreID) :
    hashUnpack (NewHash s id) = (s, id) := by
  rw [NewHash_high_eq s hs1 id h0 h1]
  have hidlt : id.toNat < 2 ^ 24 := by
    simp only [MaxStoreID] at h1
    omega
  rw [hashUnpack_packed s id.toNat hidlt]
  have hcast : ((id.toNat : Nat) : Int) = id := Int.toNat_of_nonneg h0
  rw [hcast]
  have hneg : ¬ (maxUint8 < s ∨ MaxStoreID < id) := by omega
  rw [if_neg hneg]

theorem unpack_eq_default2 (h : Nat) (hh1 : (hashUnpack h).1 = Scope.Default)
    (hh2 : (hashUnpack h).2 = 0) : h = DefaultHash := by
  rw [hashUnpack_spec] at hh1 hh2
  by_cases hc : maxUint8 < h >>> 24 ∨ MaxStoreID < ((h % 2 ^ 24 : Nat) : Int)
  · rw [if_pos hc] at hh1
    exact absurd hh1 (by decide)
  · rw [if_neg hc] at hh1 hh2
    have h1 : h >>> 24 = Scope.Default := hh1
    have h2 : ((h % 2 ^ 24 : Nat) : Int) = 0 := hh2
    have h3 : h % 2 ^ 24 = 0 := by omega
    have h4 := recompose_or h 24
    rw [h1, h3] at h4
    exact h4.symm

theorem unpack_eq_high2 (h : Nat) (s : Nat) (hs : Scope.Website ≤ s)
    (hh1 : (hashUnpack h).1 = s) :
    0 ≤ (hashUnpack h).2 ∧ (hashUnpack h).2 ≤ MaxStoreID ∧
      h = NewHash s (hashUnpack h).2 := by
  rw [hashUnpack_spec] at hh1 ⊢
  by_cases hc : maxUint8 < h >>> 24 ∨ MaxStoreID < ((h % 2 ^ 24 : Nat) : Int)
  · rw [if_pos hc] at hh1
    have h1 : (0 : Nat) = s := hh1
    simp only [Scope.Website] at hs
    omega
  · rw [if_neg hc] at hh1 ⊢
    have h1 : h >>> 24 = s := hh1
    push_neg at hc
    show (0 : Int) ≤ ((h % 2 ^ 24 : Nat) : Int) ∧
      ((h % 2 ^ 24 : Nat) : Int) ≤ MaxStoreID ∧
      h = NewHash s ((h % 2 ^ 24 : Nat) : Int)
    refine ⟨Int.natCast_nonneg _, hc.2, ?_⟩
    rw [NewHash_high_eq s hs _ (Int.natCast_nonneg _) hc.2]
    have h5 : ((h % 2 ^ 24 : Nat) : Int).toNat = h % 2 ^ 24 := by omega
    rw [h5]
    have h4 := recompose_or h 24
    rw [h1] at h4
    exact h4.symm

theorem validParent_iff_cond (h parent : Nat) :
    hashValidParent h parent = true ↔
      (((hashUnpack parent).1 = Scope.Default ∧ (hashUnpack parent).2 = 0 ∧
        (hashUnpack h).1 = Scope.Default ∧ (hashUnpack h).2 = 0) ∨
       ((hashUnpack parent).1 = Scope.Default ∧ (hashUnpack parent).2 = 0 ∧
        (hashUnpack h).1 = Scope.Website ∧ 0 ≤ (hashUnpack h).2) ∨
       ((hashUnpack parent).1 = Scope.Website ∧ 0 ≤ (hashUnpack parent).2 ∧
        (hashUnpack h).1 = Scope.Store ∧ 0 ≤ (hashUnpack h).2)) := by
  by_cases hc : (((hashUnpack parent).1 = Scope.Default ∧ (hashUnpack parent).2 = 0 ∧
        (hashUnpack h).1 = Scope.Default ∧ (hashUnpack h).2 = 0) ∨
       ((hashUnpack parent).1 = Scope.Default ∧ (hashUnpack parent).2 = 0 ∧
        (hashUnpack h).1 = Scope.Website ∧ 0 ≤ (hashUnpack h).2) ∨
       ((hashUnpack parent).1 = Scope.Website ∧ 0 ≤ (hashUnpack parent).2 ∧
        (hashUnpack h).1 = Scope.Store ∧ 0 ≤ (hashUnpack h).2))
  · simp [hashValidParent, hc]
  · simp [hashValidParent, hc]

theorem validParent_characterization (child parent : Nat) :
    hashValidParent child parent = true ↔
      ((parent = DefaultHash ∧ child = DefaultHash) ∨
       (parent = DefaultHash ∧
         ∃ id : Int, 0 ≤ id ∧ id ≤ MaxStoreID ∧ child = NewHash Scope.Website id) ∨
       (∃ pid cid : Int, 0 ≤ pid ∧ pid ≤ MaxStoreID ∧ 0 ≤ cid ∧ cid ≤ MaxStoreID ∧
         parent = NewHash Scope.Website pid ∧ child = NewHash Scope.Store cid)) := by
  rw [validParent_iff_cond]
  constructor
  · rintro (⟨hp1, hp2, hc1, hc2⟩ | ⟨hp1, hp2, hc1, hc2⟩ | ⟨hp1, hp2, hc1, hc2⟩)
    · exact Or.inl ⟨unpack_eq_default2 parent hp1 hp2, unpack_eq_default2 child hc1 hc2⟩
    · obtain ⟨a, b, c⟩ := unpack_eq_high2 child Scope.Website (le_refl _) hc1
      exact Or.inr (Or.inl ⟨unpack_eq_default2 parent hp1 hp2,
        (hashUnpack child).2, a, b, c⟩)
    · obtain ⟨a1, b1, c1⟩ := unpack_eq_high2 parent Scope.Website (le_refl _) hp1
      obtain ⟨a2, b2, c2⟩ := unpack_eq_high2 child Scope.Store (by decide) hc1
      exact Or.inr (Or.inr ⟨(hashUnpack parent).2, (hashUnpack child).2,
        a1, b1, a2, b2, c1, c2⟩)
  · rintro (⟨hp, hc⟩ | ⟨hp, id, h0, h1, hc⟩ | ⟨pid, cid, hp0, hp1, hc0, hc1, hp, hc⟩)
    · subst hp; subst hc
      exact Or.inl (by decide)
    · subst hp; subst hc
      have hcu := hashUnpack_NewHash_high Scope.Website (le_refl _) (by decide) id h0 h1
      refine Or.inr (Or.inl ⟨by decide, by decide, ?_, ?_⟩)
      · rw [hcu]
      · rw [hcu]; exact h0
    · subst hp; subst hc
      have hpu := hashUnpack_NewHash_high Scope.Website (le_refl _) (by decide) pid hp0 hp1
      have hcu := hashUnpack_NewHash_high Scope.Store (by decide) (by decide) cid hc0 hc1
      refine Or.inr (Or.inr ⟨?_, ?_, ?_, ?_⟩)
      · rw [hpu]
      · rw [hpu]; exact hp0
      · rw [hcu]
      · rw [hcu]; exact hc0

theorem equalScope_iff (h o : Nat) :
    hashEqualScope h o = true ↔
      (hashScope h ≠ Scope.Absent ∧ hashScope h = hashScope o) := by
  by_cases h1 : maxUint8 < h >>> 24
  · have e1 : hashEqualScope h o = false := by
      unfold hashEqualScope
      rw [if_pos (Or.inl h1)]
    have e2 : hashScope h = Scope.Absent := by
      unfold hashScope
      rw [if_pos h1]
    rw [e1, e2]
    simp
  · by_cases h2 : h >>> 24 = 0
    · have e1 : hashEqualScope h o = false := by
        unfold hashEqualScope
        rw [if_pos (Or.inr h2)]
      have e2 : hashScope h = Scope.Absent := by
        unfold hashScope
        rw [if_neg h1, h2]
        rfl
      rw [e1, e2]
      simp
    · have e2 : hashScope h = h >>> 24 := by
        unfold hashScope
        rw [if_neg h1]
      have hAcond : ¬ (maxUint8 < h >>> 24 ∨ h >>> 24 = 0) := by omega
      by_cases h3 : maxUint8 < o >>> 24
      · have e1 : hashEqualScope h o = false := by
          unfold hashEqualScope
          rw [if_neg hAcond, if_pos (Or.inl h3)]
        have e3 : hashScope o = Scope.Absent := by
          unfold hashScope
          rw [if_pos h3]
        rw [e1, e2, e3]
        simp only [Scope.Absent]
        constructor
        · intro hx
          exact absurd hx (by decide)
        · intro hx
          omega
      · by_cases h4 : o >>> 24 = 0
        · have e1 : hashEqualScope h o = false := by
            unfold hashEqualScope
            rw [if_neg hAcond, if_pos (Or.inr h4)]
          have e3 : hashScope o = Scope.Absent := by
            unfold hashScope
            rw [if_neg h3, h4]
            rfl
          rw [e1, e2, e3]
          simp only [Scope.Absent]
          constructor
          · intro hx
            exact absurd hx (by decide)
          · intro hx
            omega
        · have e1 : hashEqualScope h o = (h >>> 24 == o >>> 24) := by
            unfold hashEqualScope
            rw [if_neg hAcond, if_neg (by omega : ¬ (maxUint8 < o >>> 24 ∨ o >>> 24 = 0))]
          have e3 : hashScope o = o >>> 24 := by
            unfold hashScope
            rw [if_neg h3]
          rw [e1, e2, e3]
          simp only [Scope.Absent, beq_iff_eq]
          constructor
          · intro hx
            exact ⟨by omega, hx⟩
          · intro hx
            exact hx.2

/-- C5: for every valid (scope, id) pair with id in [0, MaxStoreID] (Default pairing only
with id 0; Website and Store pairing with any id in range), Unpack(NewHash(scope, id))
returns exactly (scope, id): packing followed by unpacking is the identity on valid
pairs. -/
theorem hash_roundtrip_valid_pairs :
    hashUnpack (NewHash Scope.Default 0) = (Scope.Default, 0) ∧
    (∀ id : Int, 0 ≤ id → id ≤ MaxStoreID →
      hashUnpack (NewHash Scope.Website id) = (Scope.Website, id) ∧
      hashUnpack (NewHash Scope.Store id) = (Scope.Store, id)) := by
  refine ⟨by decide, fun id h0 h1 => ⟨?_, ?_⟩⟩
  · exact hashUnpack_NewHash_high Scope.Website (le_refl _) (by decide) id h0 h1
  · exact hashUnpack_NewHash_high Scope.Store (by decide) (by decide) id h0 h1

/-- Witness for C5 at the concrete id 33. -/
theorem hash_roundtrip_valid_pairs_witness :
    hashUnpack (NewHash Scope.Website 33) = (Scope.Website, 33) ∧
    hashUnpack (NewHash Scope.Store 33) = (Scope.Store, 33) :=
  hash_roundtrip_valid_pairs.2 33 (by decide) (by decide)

/-- C6 counterexample: NewHash(Website, MaxStoreID + 1) is the zero hash, and the zero
hash unpacks as (Absent, 0), not with ID -1 as the claim states: the NewHash half of the
claim fails (the Unpack-of-an-overflowing-raw half does hold, see the amended theorem). -/
theorem newHash_overflow_id_zero_counterexample :
    NewHash Scope.Website (MaxStoreID + 1) = 0 ∧
    hashUnpack (NewHash Scope.Website (MaxStoreID + 1)) = (Scope.Absent, 0) ∧
    ¬ (hashUnpack (NewHash Scope.Website (MaxStoreID + 1))).2 = -1 := by
  decide

/-- C6 amended: NewHash(Website, MaxStoreID + 1) returns the zero hash, the documented
error value, which unpacks as the invalid/Absent scope with ID 0; Unpack applied to a
hand-crafted raw hash whose embedded ID field exceeds MaxStoreID (the pattern
Website shl 24 or 2 ^ 23) reports (Absent, -1), as does Hash.ID; neither operation
silently wraps or truncates the ID into a Website-scoped value. -/
theorem hash_overflow_behavior :
    NewHash Scope.Website (MaxStoreID + 1) = 0 ∧
    hashUnpack (NewHash Scope.Website (MaxStoreID + 1)) = (Scope.Absent, 0) ∧
    ¬ (hashUnpack (NewHash Scope.Website (MaxStoreID + 1))).1 = Scope.Website ∧
    hashUnpack (Scope.Website <<< 24 ||| (MaxStoreID + 1).toNat) = (Scope.Absent, -1) ∧
    hashID (Scope.Website <<< 24 ||| (MaxStoreID + 1).toNat) = -1 := by
  decide

/-- C7: ValidParent(parent) on a child hash returns true for exactly the three legal
chains Default/0 to Default/0 (self), Default/0 to Website/anyID with ID at least 0,
Website/anyID to Store/anyID with IDs at least 0, and false for every other combination,
including self-pairs other than Default/Default and any pair in which either hash unpacks
as invalid (ID -1). -/
theorem validParent_exactly_three_chains :
    hashValidParent DefaultHash DefaultHash = true ∧
    (∀ id : Int, 0 ≤ id → id ≤ MaxStoreID →
      hashValidParent (NewHash Scope.Website id) DefaultHash = true) ∧
    (∀ pid cid : Int, 0 ≤ pid → pid ≤ MaxStoreID → 0 ≤ cid → cid ≤ MaxStoreID →
      hashValidParent (NewHash Scope.Store cid) (NewHash Scope.Website pid) = true) ∧
    (∀ child parent : Nat,
      hashValidParent child parent = true ↔
        ((parent = DefaultHash ∧ child = DefaultHash) ∨
         (parent = DefaultHash ∧ ∃ id : Int, 0 ≤ id ∧ id ≤ MaxStoreID ∧
            child = NewHash Scope.Website id) ∨
         (∃ pid cid : Int, 0 ≤ pid ∧ pid ≤ MaxStoreID ∧ 0 ≤ cid ∧ cid ≤ MaxStoreID ∧
            parent = NewHash Scope.Website pid ∧ child = NewHash Scope.Store cid))) ∧
    (∀ h : Nat, hashValidParent h h = true ↔ h = DefaultHash) ∧
    (∀ child parent : Nat,
      (hashUnpack parent).2 = -1 ∨ (hashUnpack child).2 = -1 →
      hashValidParent child parent = false) := by
  refine ⟨by decide, ?_, ?_, validParent_characterization, ?_, ?_⟩
  · intro id h0 h1
    exact (validParent_characterization _ _).mpr
      (Or.inr (Or.inl ⟨rfl, id, h0, h1, rfl⟩))
  · intro pid cid hp0 hp1 hc0 hc1
    exact (validParent_characterization _ _).mpr
      (Or.inr (Or.inr ⟨pid, cid, hp0, hp1, hc0, hc1, rfl, rfl⟩))
  · intro h
    constructor
    · intro hv
      rcases (validParent_characterization h h).mp hv with
        ⟨hp, _⟩ | ⟨hp, _⟩ | ⟨pid, cid, hp0, hp1, hc0, hc1, hp, hc⟩
      · exact hp
      · exact hp
      · have e1 := hashUnpack_NewHash_high Scope.Website (le_refl _) (by decide) pid hp0 hp1
        have e2 := hashUnpack_NewHash_high Scope.Store (by decide) (by decide) cid hc0 hc1
        rw [← hp] at e1
        rw [← hc] at e2
        rw [e1] at e2
        have hx : Scope.Website = Scope.Store := congrArg Prod.fst e2
        exact absurd hx (by decide)
    · intro hv
      subst hv
      decide
  · intro child parent hinv
    by_contra hne
    have htrue : hashValidParent child parent = true := by
      cases hb : hashValidParent child parent
      · exact absurd hb hne
      · rfl
    rcases (validParent_characterization child parent).mp htrue with
      ⟨hp, hc⟩ | ⟨hp, id, h0, h1, hc⟩ | ⟨pid, cid, hp0, hp1, hc0, hc1, hp, hc⟩
    · subst hp; subst hc
      rcases hinv with hx | hx <;> exact absurd hx (by decide)
    · subst hp; subst hc
      have e1 := hashUnpack_NewHash_high Scope.Website (le_refl _) (by decide) id h0 h1
      rcases hinv with hx | hx
      · exact absurd hx (by decide)
      · rw [e1] at hx
        simp at hx
        omega
    · subst hp; subst hc
      have e1 := hashUnpack_NewHash_high Scope.Website (le_refl _) (by decide) pid hp0 hp1
      have e2 := hashUnpack_NewHash_high Scope.Store (by decide) (by decide) cid hc0 hc1
      rcases hinv with hx | hx
      · rw [e1] at hx
        simp at hx
        omega
      · rw [e2] at hx
        simp at hx
        omega

/-- Witness for C7 at concrete ids: Website 9 is a valid child of Default/0 and
Store 7 is a valid child of Website 9. -/
theorem validParent_exactly_three_chains_witness :
    hashValidParent (NewHash Scope.Website 9) DefaultHash = true ∧
    hashValidParent (NewHash Scope.Store 7) (NewHash Scope.Website 9) = true :=
  ⟨validParent_exactly_three_chains.2.1 9 (by decide) (by decide),
   validParent_exactly_three_chains.2.2.1 9 7 (by decide) (by decide) (by decide) (by decide)⟩

/-- C8 counterexample: the raw 32-bit pattern 41943040 (Website shl 24 or 2 ^ 23) has an
embedded ID exceeding MaxStoreID, so Unpack reports it invalid as (Absent, -1), yet
EqualScope on two identical copies of it returns true, not false as the claim states:
EqualScope inspects only the scope bytes and never the ID field. -/
theorem equalScope_invalid_id_counterexample :
    hashEqualScope 41943040 41943040 = true ∧
    hashUnpack 41943040 = (Scope.Absent, -1) ∧
    hashID 41943040 = -1 := by
  decide

/-- C8 amended: EqualScope compares only the scope bytes: it returns true exactly when
the child and the other hash have equal scope bytes whose value, as reported by
Hash.Scope, is not Absent. It does not inspect the ID field, so a hash whose embedded ID
exceeds MaxStoreID (which Unpack reports as invalid) still compares scope-equal, even to
itself; only a zero (Absent) or out-of-byte-range scope field forces false. -/
theorem equalScope_compares_scope_bytes_only :
    ∀ h o : Nat, hashEqualScope h o = true ↔
      (hashScope h ≠ Scope.Absent ∧ hashScope h = hashScope o) :=
  equalScope_iff

/-- Modelled from the spec: a cfgpath.Path (cfgpath is absent from the sources; spec
sect. 3): a Route, the slash-delimited string section/group/field without scope
information, plus the bound scope captured as a ScopeHash (field name as in the Go
struct). -/
structure CfgPath where
  route : String
  ScopeHash : Nat
deriving DecidableEq

/-- Modelled from the spec: cfgpath.New (spec sect. 4.3 and 4.5 step 1): validates the
three-segment slash structure with non-empty segments (which also excludes leading and
trailing slashes) and fails with a NotValid-flavored error on malformed input; the
character-set restriction mentioned by the spec is left unspecified there and is not
modelled. A freshly parsed Path is unbound and an unbound Path defaults to Default-scope
serialization (spec sect. 3), so it carries DefaultHash. The slash split is carried out
on the character list by the structurally recursive splitSlash, which agrees with
splitting the string at every slash. -/
def splitSlash (cs : List Char) : List (List Char) :=
  match cs with
  | [] => [[]]
  | c :: rest =>
    match splitSlash rest with
    | [] => [[]]
    | seg :: segs => if c = '/' then [] :: seg :: segs else (c :: seg) :: segs

def cfgpathNew (r : String) : Except Err CfgPath :=
  let segs := splitSlash r.data
  if segs.length = 3 ∧ ∀ sg ∈ segs, sg ≠ [] then
    Except.ok { route := r, ScopeHash := DefaultHash }
  else
    Except.error (Err.notValid ("[cfgpath] Route " ++ r ++ " invalid"))

/-- Modelled from the spec: Path.BindStore (spec sect. 4.3): returns a copy with the Hash
set to Store/id; does not itself validate the id. -/
def bindStore (p : CfgPath) (id : Int) : CfgPath :=
  { p with ScopeHash := NewHash Scope.Store id }

/-- Modelled from the spec: Path.BindWebsite (spec sect. 4.3): returns a copy with the
Hash set to Website/id; does not itself validate the id. -/
def bindWebsite (p : CfgPath) (id : Int) : CfgPath :=
  { p with ScopeHash := NewHash Scope.Website id }

/-- Stand-in for a Go float64 value carried opaquely through the resolver, which never
inspects values: the 64 raw bits; the zero value 0.0 is all-zero bits. -/
structure GoFloat64 where
  bits : Nat
deriving DecidableEq

/-- Stand-in for a Go time.Time value carried opaquely through the resolver. -/
structure GoTime where
  sec : Int
  nsec : Nat
deriving DecidableEq

/-- The root Getter interface of the config package (spec sect. 6): six typed accessors,
each an exact-scope lookup keyed by a fully bound Path, returning (value, error). Field
xF embeds the Go method x. -/
structure Getter where
  byteF : CfgPath → List Nat × Option Err
  stringF : CfgPath → String × Option Err
  boolF : CfgPath → Bool × Option Err
  intF : CfgPath → Int × Option Err
  float64F : CfgPath → GoFloat64 × Option Err
  timeF : CfgPath → GoTime × Option Err

/-- config.Scoped of src/unnamed/part_000 lines 54-60: the root Getter plus the
(WebsiteID, StoreID) pair. -/
structure Scoped where
  Root : Getter
  WebsiteID : Int
  StoreID : Int

/-- Scoped.Scope of src/unnamed/part_000 lines 82-90: the most specific scope implied by
the IDs, with its ID. -/
def Scoped.scopePair (ss : Scoped) : Nat × Int :=
  if 0 < ss.StoreID then (Scope.Store, ss.StoreID)
  else if 0 < ss.WebsiteID then (Scope.Website, ss.WebsiteID)
  else (Scope.Default, 0)

/-- Scoped.Parent of src/unnamed/part_000 lines 74-79. -/
def Scoped.parentPair (ss : Scoped) : Nat × Int :=
  if 0 < ss.StoreID then (Scope.Website, ss.WebsiteID)
  else (Scope.Default, 0)

/-- Scoped.isAllowedStore of src/unnamed/part_000 lines 92-98: the effective scope is the
first restriction argument when one is supplied and is above Absent, else the natural
scope; the attempt needs StoreID above 0 and the reverse Store permission. -/
def Scoped.isAllowedStore (ss : Scoped) (s : List Nat) : Bool :=
  let scp := (ss.scopePair).1
  let scp := match s with
    | [] => scp
    | s0 :: _ => if Scope.Absent < s0 then s0 else scp
  decide (0 < ss.StoreID) && permHas PermStoreReverse scp

/-- Scoped.isAllowedWebsite of src/unnamed/part_000 lines 100-106. -/
def Scoped.isAllowedWebsite (ss : Scoped) (s : List Nat) : Bool :=
  let scp := (ss.scopePair).1
  let scp := match s with
    | [] => scp
    | s0 :: _ => if Scope.Absent < s0 then s0 else scp
  decide (0 < ss.WebsiteID) && permHas PermWebsiteReverse scp

/-- The fallback body shared verbatim by the six typed accessors of config.Scoped
(src/unnamed/part_000: Byte lines 110-136, String 140-167, Bool 171-198, Float64 202-229,
Int 233-260, Time 264-291); the six Go methods are textually identical up to the value
type, the Root method called, the zero value and the wrap message, so the body is
factored here once and instantiated per accessor below. Go rebinds its path variable p in
place at each step, but BindStore/BindWebsite change only the ScopeHash field and never
the route, so binding from the freshly parsed path yields the identical path value.
Each step returns when the root lookup produced no error or an error that is not
NotFound-flavored, the literal condition of the source; the final step stamps the
constant DefaultHash. -/
def Scoped.resolveWith {α : Type} (ss : Scoped) (root : CfgPath → α × Option Err)
    (zero : α) (msg : String) (r : String) (s : List Nat) : α × Nat × Option Err :=
  match cfgpathNew r with
  | .error err => (zero, 0, some (Err.wrap msg err))
  | .ok p =>
    match (if ss.isAllowedStore s then
        let p1 := bindStore p ss.StoreID
        let vErr := root p1
        if !(isNotFoundO vErr.2) || vErr.2.isNone then some (vErr.1, p1.ScopeHash, vErr.2)
        else none
      else none : Option (α × Nat × Option Err)) with
    | some out => out
    | none =>
      match (if ss.isAllowedWebsite s then
          let p2 := bindWebsite p ss.WebsiteID
          let vErr := root p2
          if !(isNotFoundO vErr.2) || vErr.2.isNone then some (vErr.1, p2.ScopeHash, vErr.2)
          else none
        else none : Option (α × Nat × Option Err)) with
      | some out => out
      | none =>
        let p3 : CfgPath := { p with ScopeHash := DefaultHash }
        let vErr := root p3
        (vErr.1, DefaultHash, vErr.2)

/-- Scoped.Byte of src/unnamed/part_000 lines 110-136. -/
def Scoped.getByte (ss : Scoped) (r : String) (s : List Nat) :
    List Nat × Nat × Option Err :=
  ss.resolveWith ss.Root.byteF [] "[config] Byte. Route %q" r s

/-- Scoped.String of src/unnamed/part_000 lines 140-167. -/
def Scoped.getString (ss : Scoped) (r : String) (s : List Nat) :
    String × Nat × Option Err :=
  ss.resolveWith ss.Root.stringF "" "[config] String. Route %q" r s

/-- Scoped.Bool of src/unnamed/part_000 lines 171-198. -/
def Scoped.getBool (ss : Scoped) (r : String) (s : List Nat) :
    Bool × Nat × Option Err :=
  ss.resolveWith ss.Root.boolF false "[config] Bool. Route %q" r s

/-- Scoped.Int of src/unnamed/part_000 lines 233-260. -/
def Scoped.getInt (ss : Scoped) (r : String) (s : List Nat) :
    Int × Nat × Option Err :=
  ss.resolveWith ss.Root.intF 0 "[config] Int. Route %q" r s

/-- Scoped.Float64 of src/unnamed/part_000 lines 202-229. -/
def Scoped.getFloat64 (ss : Scoped) (r : String) (s : List Nat) :
    GoFloat64 × Nat × Option Err :=
  ss.resolveWith ss.Root.float64F { bits := 0 } "[config] Float64. Route %q" r s

/-- Scoped.Time of src/unnamed/part_000 lines 264-291. -/
def Scoped.getTime (ss : Scoped) (r : String) (s : List Nat) :
    GoTime × Nat × Option Err :=
  ss.resolveWith ss.Root.timeF { sec := 0, nsec := 0 } "[config] Time. Route %q" r s

theorem isAllowedStore_nil (ss : Scoped) (h : 0 < ss.StoreID) :
    ss.isAllowedStore [] = true := by
  simp only [Scoped.isAllowedStore, Scoped.scopePair, if_pos h]
  simp [h, permHas, PermStoreReverse, Scope.Store]

theorem isAllowedWebsite_nil_store (ss : Scoped) (h : 0 < ss.StoreID)
    (hw : 0 < ss.WebsiteID) : ss.isAllowedWebsite [] = true := by
  simp only [Scoped.isAllowedWebsite, Scoped.scopePair, if_pos h]
  simp [hw, permHas, PermWebsiteReverse, Scope.Store, Scope.Website]


theorem isAllowedStore_website_restr (ss : Scoped) :
    ss.isAllowedStore [Scope.Website] = false := by
  simp only [Scoped.isAllowedStore]
  rw [if_pos (by decide : Scope.Absent < Scope.Website)]
  have hp : permHas PermStoreReverse Scope.Website = false := by decide
  rw [hp, Bool.and_false]

theorem isAllowedWebsite_website_restr (ss : Scoped) (hw : 0 < ss.WebsiteID) :
    ss.isAllowedWebsite [Scope.Website] = true := by
  simp only [Scoped.isAllowedWebsite]
  rw [if_pos (by decide : Scope.Absent < Scope.Website)]
  have hp : permHas PermWebsiteReverse Scope.Website = true := by decide
  rw [hp, Bool.and_true]
  exact decide_eq_true hw

theorem bindStore_ScopeHash (p : CfgPath) (id : Int) :
    (bindStore p id).ScopeHash = NewHash Scope.Store id := rfl

theorem bindWebsite_ScopeHash (p : CfgPath) (id : Int) :
    (bindWebsite p id).ScopeHash = NewHash Scope.Website id := rfl

theorem resolve_invalid_route {α : Type} (ss : Scoped) (root : CfgPath → α × Option Err)
    (zero : α) (msg : String) (r : String) (s : List Nat) (e : Err)
    (herr : cfgpathNew r = .error e) :
    ss.resolveWith root zero msg r s = (zero, 0, some (Err.wrap msg e)) := by
  simp [Scoped.resolveWith, herr]

theorem resolve_store_returns {α : Type} (ss : Scoped) (root : CfgPath → α × Option Err)
    (zero : α) (msg : String) (r : String) (s : List Nat) (p : CfgPath)
    (hok : cfgpathNew r = .ok p)
    (hallow : ss.isAllowedStore s = true)
    (v : α) (err : Option Err) (hroot : root (bindStore p ss.StoreID) = (v, err))
    (hret : (!(isNotFoundO err) || err.isNone) = true) :
    ss.resolveWith root zero msg r s = (v, NewHash Scope.Store ss.StoreID, err) := by
  cases err with
  | none =>
    simp [Scoped.resolveWith, hok, hallow, hroot, isNotFoundO, bindStore_ScopeHash]
  | some e =>
    have hne : e.isNotFound = false := by simpa [isNotFoundO] using hret
    simp [Scoped.resolveWith, hok, hallow, hroot, isNotFoundO, hne, bindStore_ScopeHash]

theorem resolve_website_returns {α : Type} (ss : Scoped) (root : CfgPath → α × Option Err)
    (zero : α) (msg : String) (r : String) (s : List Nat) (p : CfgPath)
    (hok : cfgpathNew r = .ok p)
    (hskip : ss.isAllowedStore s = false ∨
      ∃ v1 e1, root (bindStore p ss.StoreID) = (v1, some e1) ∧ e1.isNotFound = true)
    (hallow : ss.isAllowedWebsite s = true)
    (v : α) (err : Option Err) (hroot : root (bindWebsite p ss.WebsiteID) = (v, err))
    (hret : (!(isNotFoundO err) || err.isNone) = true) :
    ss.resolveWith root zero msg r s = (v, NewHash Scope.Website ss.WebsiteID, err) := by
  have hwb : ∀ e, err = some e → e.isNotFound = false := by
    intro e he
    subst he
    simpa [isNotFoundO] using hret
  rcases hskip with hna | ⟨v1, e1, hroot1, hnf1⟩
  · cases err with
    | none =>
      simp [Scoped.resolveWith, hok, hna, hallow, hroot, isNotFoundO,
        bindWebsite_ScopeHash]
    | some e =>
      have hne := hwb e rfl
      simp [Scoped.resolveWith, hok, hna, hallow, hroot, isNotFoundO, hne,
        bindWebsite_ScopeHash]
  · cases err with
    | none =>
      simp [Scoped.resolveWith, hok, hroot1, hnf1, hallow, hroot, isNotFoundO,
        bindWebsite_ScopeHash]
    | some e =>
      have hne := hwb e rfl
      simp [Scoped.resolveWith, hok, hroot1, hnf1, hallow, hroot, isNotFoundO, hne,
        bindWebsite_ScopeHash]

theorem resolve_default_step {α : Type} (ss : Scoped) (root : CfgPath → α × Option Err)
    (zero : α) (msg : String) (r : String) (s : List Nat) (p : CfgPath)
    (hok : cfgpathNew r = .ok p)
    (hskipStore : ss.isAllowedStore s = false ∨
      ∃ v1 e1, root (bindStore p ss.StoreID) = (v1, some e1) ∧ e1.isNotFound = true)
    (hskipWebsite : ss.isAllowedWebsite s = false ∨
      ∃ v2 e2, root (bindWebsite p ss.WebsiteID) = (v2, some e2) ∧ e2.isNotFound = true) :
    ss.resolveWith root zero msg r s =
      ((root { p with ScopeHash := DefaultHash }).1, DefaultHash,
       (root { p with ScopeHash := DefaultHash }).2) := by
  rcases hskipStore with hna1 | ⟨v1, e1, hroot1, hnf1⟩ <;>
    rcases hskipWebsite with hna2 | ⟨v2, e2, hroot2, hnf2⟩
  · simp [Scoped.resolveWith, hok, hna1, hna2]
  · simp [Scoped.resolveWith, hok, hna1, hroot2, hnf2, isNotFoundO]
  · simp [Scoped.resolveWith, hok, hroot1, hnf1, isNotFoundO, hna2]
  · simp [Scoped.resolveWith, hok, hroot1, hnf1, hroot2, hnf2, isNotFoundO]

theorem cfgpathNew_error_notValid (r : String) (e : Err)
    (herr : cfgpathNew r = .error e) : e.isNotValid = true := by
  unfold cfgpathNew at herr
  by_cases hc : (splitSlash r.data).length = 3 ∧ ∀ sg ∈ splitSlash r.data, sg ≠ []
  · rw [if_pos hc] at herr
    exact absurd herr (by simp)
  · rw [if_neg hc] at herr
    have he : Err.notValid ("[cfgpath] Route " ++ r ++ " invalid") = e := by
      simpa using herr
    rw [← he]
    rfl

/-- C1: for every well-formed route and every Scoped resolver with StoreID above 0 and
WebsiteID above 0, if the root Getter reports a NotFound-flavored error at the
Store-bound path and at the Website-bound path and holds a value at Default scope, then
each typed accessor (Byte, String, Bool, Float64, Int, Time) returns that Default-scope
value together with the exported constant DefaultHash, which carries scope Default and
ID 0 and is never a Store or Website hash, and no error. -/
theorem scoped_default_fallback_all_accessors
    (ss : Scoped) (r : String) (p : CfgPath)
    (hok : cfgpathNew r = .ok p) (_hst : 0 < ss.StoreID) (_hwb : 0 < ss.WebsiteID) :
    (∀ v1 e1 v2 e2 v,
      ss.Root.byteF (bindStore p ss.StoreID) = (v1, some e1) → e1.isNotFound = true →
      ss.Root.byteF (bindWebsite p ss.WebsiteID) = (v2, some e2) → e2.isNotFound = true →
      ss.Root.byteF { p with ScopeHash := DefaultHash } = (v, none) →
      ss.getByte r [] = (v, DefaultHash, none)) ∧
    (∀ v1 e1 v2 e2 v,
      ss.Root.stringF (bindStore p ss.StoreID) = (v1, some e1) → e1.isNotFound = true →
      ss.Root.stringF (bindWebsite p ss.WebsiteID) = (v2, some e2) → e2.isNotFound = true →
      ss.Root.stringF { p with ScopeHash := DefaultHash } = (v, none) →
      ss.getString r [] = (v, DefaultHash, none)) ∧
    (∀ v1 e1 v2 e2 v,
      ss.Root.boolF (bindStore p ss.StoreID) = (v1, some e1) → e1.isNotFound = true →
      ss.Root.boolF (bindWebsite p ss.WebsiteID) = (v2, some e2) → e2.isNotFound = true →
      ss.Root.boolF { p with ScopeHash := DefaultHash } = (v, none) →
      ss.getBool r [] = (v, DefaultHash, none)) ∧
    (∀ v1 e1 v2 e2 v,
      ss.Root.intF (bindStore p ss.StoreID) = (v1, some e1) → e1.isNotFound = true →
      ss.Root.intF (bindWebsite p ss.WebsiteID) = (v2, some e2) → e2.isNotFound = true →
      ss.Root.intF { p with ScopeHash := DefaultHash } = (v, none) →
      ss.getInt r [] = (v, DefaultHash, none)) ∧
    (∀ v1 e1 v2 e2 v,
      ss.Root.float64F (bindStore p ss.StoreID) = (v1, some e1) → e1.isNotFound = true →
      ss.Root.float64F (bindWebsite p ss.WebsiteID) = (v2, some e2) → e2.isNotFound = true →
      ss.Root.float64F { p with ScopeHash := DefaultHash } = (v, none) →
      ss.getFloat64 r [] = (v, DefaultHash, none)) ∧
    (∀ v1 e1 v2 e2 v,
      ss.Root.timeF (bindStore p ss.StoreID) = (v1, some e1) → e1.isNotFound = true →
      ss.Root.timeF (bindWebsite p ss.WebsiteID) = (v2, some e2) → e2.isNotFound = true →
      ss.Root.timeF { p with ScopeHash := DefaultHash } = (v, none) →
      ss.getTime r [] = (v, DefaultHash, none)) ∧
    hashUnpack DefaultHash = (Scope.Default, 0) ∧
    ¬ hashScope DefaultHash = Scope.Store ∧ ¬ hashScope DefaultHash = Scope.Website := by
  refine ⟨?_, ?_, ?_, ?_, ?_, ?_, by decide, by decide, by decide⟩ <;>
    intro v1 e1 v2 e2 v h1 h2 h3 h4 h5
  · have hstep := resolve_default_step ss ss.Root.byteF [] "[config] Byte. Route %q"
      r [] p hok (Or.inr ⟨v1, e1, h1, h2⟩) (Or.inr ⟨v2, e2, h3, h4⟩)
    unfold Scoped.getByte
    rw [hstep, h5]
  · have hstep := resolve_default_step ss ss.Root.stringF "" "[config] String. Route %q"
      r [] p hok (Or.inr ⟨v1, e1, h1, h2⟩) (Or.inr ⟨v2, e2, h3, h4⟩)
    unfold Scoped.getString
    rw [hstep, h5]
  · have hstep := resolve_default_step ss ss.Root.boolF false "[config] Bool. Route %q"
      r [] p hok (Or.inr ⟨v1, e1, h1, h2⟩) (Or.inr ⟨v2, e2, h3, h4⟩)
    unfold Scoped.getBool
    rw [hstep, h5]
  · have hstep := resolve_default_step ss ss.Root.intF 0 "[config] Int. Route %q"
      r [] p hok (Or.inr ⟨v1, e1, h1, h2⟩) (Or.inr ⟨v2, e2, h3, h4⟩)
    unfold Scoped.getInt
    rw [hstep, h5]
  · have hstep := resolve_default_step ss ss.Root.float64F { bits := 0 }
      "[config] Float64. Route %q" r [] p hok
      (Or.inr ⟨v1, e1, h1, h2⟩) (Or.inr ⟨v2, e2, h3, h4⟩)
    unfold Scoped.getFloat64
    rw [hstep, h5]
  · have hstep := resolve_default_step ss ss.Root.timeF { sec := 0, nsec := 0 }
      "[config] Time. Route %q" r [] p hok
      (Or.inr ⟨v1, e1, h1, h2⟩) (Or.inr ⟨v2, e2, h3, h4⟩)
    unfold Scoped.getTime
    rw [hstep, h5]

instance : DecidableEq (Except Err CfgPath) := fun a b =>
  match a, b with
  | .ok x, .ok y =>
    match decEq x y with
    | isTrue h => isTrue (congrArg Except.ok h)
    | isFalse h => isFalse (fun hx => h (Except.ok.inj hx))
  | .error x, .error y =>
    match decEq x y with
    | isTrue h => isTrue (congrArg Except.error h)
    | isFalse h => isFalse (fun hx => h (Except.error.inj hx))
  | .ok _, .error _ => isFalse (fun hx => Except.noConfusion hx)
  | .error _, .ok _ => isFalse (fun hx => Except.noConfusion hx)

/-- Concrete root getter used by witnesses: every lookup at a path other than the
Default-bound one is NotFound; the Default-bound path holds a value. -/
def witGetter : Getter where
  byteF p := if p.ScopeHash = DefaultHash then ([7], none)
             else ([], some (Err.notFound "nf"))
  stringF p := if p.ScopeHash = DefaultHash then ("dv", none)
               else ("", some (Err.notFound "nf"))
  boolF p := if p.ScopeHash = DefaultHash then (true, none)
             else (false, some (Err.notFound "nf"))
  intF p := if p.ScopeHash = DefaultHash then (42, none)
            else (0, some (Err.notFound "nf"))
  float64F p := if p.ScopeHash = DefaultHash then ({ bits := 5 }, none)
                else ({ bits := 0 }, some (Err.notFound "nf"))
  timeF p := if p.ScopeHash = DefaultHash then ({ sec := 9, nsec := 1 }, none)
             else ({ sec := 0, nsec := 0 }, some (Err.notFound "nf"))

/-- Witness for C1: a Store(1)/Website(1) resolver over witGetter falls back to the
Default value with DefaultHash and no error. -/
theorem scoped_default_fallback_witness :
    Scoped.getString { Root := witGetter, WebsiteID := 1, StoreID := 1 } "aa/bb/cc" [] =
      ("dv", DefaultHash, none) := by
  have h := scoped_default_fallback_all_accessors
    { Root := witGetter, WebsiteID := 1, StoreID := 1 } "aa/bb/cc"
    { route := "aa/bb/cc", ScopeHash := DefaultHash } (by decide) (by decide) (by decide)
  exact h.2.1 "" (Err.notFound "nf") "" (Err.notFound "nf") "dv"
    (by decide) (by decide) (by decide) (by decide) (by decide)

/-- C4: for every malformed route, one the Path constructor rejects, every typed
accessor of the Scoped resolver returns immediately with the zero value of its type,
Hash 0 and a wrapped NotValid-flavored error, for every root Getter and every scope
restriction, so no lookup is performed at any scope and no fallback chain starts. -/
theorem scoped_invalid_route_short_circuits
    (ss : Scoped) (r : String) (s : List Nat) (e : Err)
    (herr : cfgpathNew r = .error e) :
    e.isNotValid = true ∧
    ss.getByte r s = ([], 0, some (Err.wrap "[config] Byte. Route %q" e)) ∧
    ss.getString r s = ("", 0, some (Err.wrap "[config] String. Route %q" e)) ∧
    ss.getBool r s = (false, 0, some (Err.wrap "[config] Bool. Route %q" e)) ∧
    ss.getInt r s = (0, 0, some (Err.wrap "[config] Int. Route %q" e)) ∧
    ss.getFloat64 r s =
      ({ bits := 0 }, 0, some (Err.wrap "[config] Float64. Route %q" e)) ∧
    ss.getTime r s =
      ({ sec := 0, nsec := 0 }, 0, some (Err.wrap "[config] Time. Route %q" e)) ∧
    (Err.wrap "[config] Byte. Route %q" e).isNotValid = true ∧
    (Err.wrap "[config] String. Route %q" e).isNotValid = true := by
  have hnv := cfgpathNew_error_notValid r e herr
  refine ⟨hnv, ?_, ?_, ?_, ?_, ?_, ?_, ?_, ?_⟩
  · exact resolve_invalid_route ss ss.Root.byteF [] "[config] Byte. Route %q" r s e herr
  · exact resolve_invalid_route ss ss.Root.stringF "" "[config] String. Route %q" r s e herr
  · exact resolve_invalid_route ss ss.Root.boolF false "[config] Bool. Route %q" r s e herr
  · exact resolve_invalid_route ss ss.Root.intF 0 "[config] Int. Route %q" r s e herr
  · exact resolve_invalid_route ss ss.Root.float64F { bits := 0 }
      "[config] Float64. Route %q" r s e herr
  · exact resolve_invalid_route ss ss.Root.timeF { sec := 0, nsec := 0 }
      "[config] Time. Route %q" r s e herr
  · simp [Err.isNotValid, hnv]
  · simp [Err.isNotValid, hnv]

/-- Witness for C4 at the one-segment route of the repository test
TestNotKeyNotFoundError: the String accessor returns the zero value, Hash 0 and a
wrapped NotValid error. -/
theorem scoped_invalid_route_witness :
    Scoped.getString { Root := witGetter, WebsiteID := 1, StoreID := 1 } "catalog" [] =
      ("", 0, some (Err.wrap "[config] String. Route %q"
        (Err.notValid "[cfgpath] Route catalog invalid"))) :=
  (scoped_invalid_route_short_circuits
    { Root := witGetter, WebsiteID := 1, StoreID := 1 } "catalog" []
    (Err.notValid "[cfgpath] Route catalog invalid") (by decide)).2.2.1

theorem isAllowedWebsite_nonpos (ss : Scoped) (hw : ¬ 0 < ss.WebsiteID) (s : List Nat) :
    ss.isAllowedWebsite s = false := by
  simp [Scoped.isAllowedWebsite, hw]

theorem resolve_no_store_invariance {α : Type} (ss : Scoped)
    (root root2 : CfgPath → α × Option Err)
    (zero : α) (msg : String) (r : String) (s : List Nat) (p : CfgPath)
    (hok : cfgpathNew r = .ok p)
    (hna : ss.isAllowedStore s = false)
    (hwbsame : root2 (bindWebsite p ss.WebsiteID) = root (bindWebsite p ss.WebsiteID))
    (hdefsame : root2 { p with ScopeHash := DefaultHash } =
      root { p with ScopeHash := DefaultHash }) :
    ss.resolveWith root2 zero msg r s = ss.resolveWith root zero msg r s := by
  simp [Scoped.resolveWith, hok, hna, hwbsame, hdefsame]

/-- C2: for every Scoped resolver whose Store attempt is permitted (the source
condition isAllowedStore, requiring StoreID above 0 and the reverse Store permission for
the effective scope), if the root lookup at the Store-bound path returns an error that is
not NotFound-flavored, then every typed accessor returns that error immediately together
with the Store-scoped hash NewHash(Store, StoreID); and any two root Getters agreeing at
the Store-bound path produce the same outcome, so the root Getter is never consulted at
Website or Default scope. -/
theorem scoped_store_error_short_circuits
    (ss : Scoped) (r : String) (p : CfgPath) (s : List Nat)
    (hok : cfgpathNew r = .ok p)
    (hallow : ss.isAllowedStore s = true) :
    (∀ v e, ss.Root.byteF (bindStore p ss.StoreID) = (v, some e) →
      e.isNotFound = false →
      ss.getByte r s = (v, NewHash Scope.Store ss.StoreID, some e) ∧
      ∀ g2 : Getter, g2.byteF (bindStore p ss.StoreID) = (v, some e) →
        Scoped.getByte { ss with Root := g2 } r s =
          (v, NewHash Scope.Store ss.StoreID, some e)) ∧
    (∀ v e, ss.Root.stringF (bindStore p ss.StoreID) = (v, some e) →
      e.isNotFound = false →
      ss.getString r s = (v, NewHash Scope.Store ss.StoreID, some e) ∧
      ∀ g2 : Getter, g2.stringF (bindStore p ss.StoreID) = (v, some e) →
        Scoped.getString { ss with Root := g2 } r s =
          (v, NewHash Scope.Store ss.StoreID, some e)) ∧
    (∀ v e, ss.Root.boolF (bindStore p ss.StoreID) = (v, some e) →
      e.isNotFound = false →
      ss.getBool r s = (v, NewHash Scope.Store ss.StoreID, some e) ∧
      ∀ g2 : Getter, g2.boolF (bindStore p ss.StoreID) = (v, some e) →
        Scoped.getBool { ss with Root := g2 } r s =
          (v, NewHash Scope.Store ss.StoreID, some e)) ∧
    (∀ v e, ss.Root.intF (bindStore p ss.StoreID) = (v, some e) →
      e.isNotFound = false →
      ss.getInt r s = (v, NewHash Scope.Store ss.StoreID, some e) ∧
      ∀ g2 : Getter, g2.intF (bindStore p ss.StoreID) = (v, some e) →
        Scoped.getInt { ss with Root := g2 } r s =
          (v, NewHash Scope.Store ss.StoreID, some e)) ∧
    (∀ v e, ss.Root.float64F (bindStore p ss.StoreID) = (v, some e) →
      e.isNotFound = false →
      ss.getFloat64 r s = (v, NewHash Scope.Store ss.StoreID, some e) ∧
      ∀ g2 : Getter, g2.float64F (bindStore p ss.StoreID) = (v, some e) →
        Scoped.getFloat64 { ss with Root := g2 } r s =
          (v, NewHash Scope.Store ss.StoreID, some e)) ∧
    (∀ v e, ss.Root.timeF (bindStore p ss.StoreID) = (v, some e) →
      e.isNotFound = false →
      ss.getTime r s = (v, NewHash Scope.Store ss.StoreID, some e) ∧
      ∀ g2 : Getter, g2.timeF (bindStore p ss.StoreID) = (v, some e) →
        Scoped.getTime { ss with Root := g2 } r s =
          (v, NewHash Scope.Store ss.StoreID, some e)) := by
  refine ⟨?_, ?_, ?_, ?_, ?_, ?_⟩ <;> intro v e h1 h2 <;> refine ⟨?_, ?_⟩
  · exact resolve_store_returns ss ss.Root.byteF [] "[config] Byte. Route %q" r s p
      hok hallow v (some e) h1 (by simp [isNotFoundO, h2])
  · intro g2 hg2
    exact resolve_store_returns { ss with Root := g2 } g2.byteF []
      "[config] Byte. Route %q" r s p hok hallow v (some e) hg2
      (by simp [isNotFoundO, h2])
  · exact resolve_store_returns ss ss.Root.stringF "" "[config] String. Route %q" r s p
      hok hallow v (some e) h1 (by simp [isNotFoundO, h2])
  · intro g2 hg2
    exact resolve_store_returns { ss with Root := g2 } g2.stringF ""
      "[config] String. Route %q" r s p hok hallow v (some e) hg2
      (by simp [isNotFoundO, h2])
  · exact resolve_store_returns ss ss.Root.boolF false "[config] Bool. Route %q" r s p
      hok hallow v (some e) h1 (by simp [isNotFoundO, h2])
  · intro g2 hg2
    exact resolve_store_returns { ss with Root := g2 } g2.boolF false
      "[config] Bool. Route %q" r s p hok hallow v (some e) hg2
      (by simp [isNotFoundO, h2])
  · exact resolve_store_returns ss ss.Root.intF 0 "[config] Int. Route %q" r s p
      hok hallow v (some e) h1 (by simp [isNotFoundO, h2])
  · intro g2 hg2
    exact resolve_store_returns { ss with Root := g2 } g2.intF 0
      "[config] Int. Route %q" r s p hok hallow v (some e) hg2
      (by simp [isNotFoundO, h2])
  · exact resolve_store_returns ss ss.Root.float64F { bits := 0 }
      "[config] Float64. Route %q" r s p hok hallow v (some e) h1
      (by simp [isNotFoundO, h2])
  · intro g2 hg2
    exact resolve_store_returns { ss with Root := g2 } g2.float64F { bits := 0 }
      "[config] Float64. Route %q" r s p hok hallow v (some e) hg2
      (by simp [isNotFoundO, h2])
  · exact resolve_store_returns ss ss.Root.timeF { sec := 0, nsec := 0 }
      "[config] Time. Route %q" r s p hok hallow v (some e) h1
      (by simp [isNotFoundO, h2])
  · intro g2 hg2
    exact resolve_store_returns { ss with Root := g2 } g2.timeF { sec := 0, nsec := 0 }
      "[config] Time. Route %q" r s p hok hallow v (some e) hg2
      (by simp [isNotFoundO, h2])

/-- Concrete root getter for the C2 witness: every lookup yields a NotValid error. -/
def c2Getter : Getter where
  byteF _ := ([], some (Err.notValid "bad"))
  stringF _ := ("boom", some (Err.notValid "bad"))
  boolF _ := (false, some (Err.notValid "bad"))
  intF _ := (0, some (Err.notValid "bad"))
  float64F _ := ({ bits := 0 }, some (Err.notValid "bad"))
  timeF _ := ({ sec := 0, nsec := 0 }, some (Err.notValid "bad"))

/-- Witness for C2: a Store(1)/Website(1) resolver over c2Getter returns the NotValid
error with the Store hash from the String accessor. -/
theorem scoped_store_error_witness :
    Scoped.getString { Root := c2Getter, WebsiteID := 1, StoreID := 1 } "aa/bb/cc" [] =
      ("boom", NewHash Scope.Store 1, some (Err.notValid "bad")) :=
  ((scoped_store_error_short_circuits
      { Root := c2Getter, WebsiteID := 1, StoreID := 1 } "aa/bb/cc"
      { route := "aa/bb/cc", ScopeHash := DefaultHash } [] (by decide)
      (by decide)).2.1 "boom" (Err.notValid "bad") (by decide) (by decide)).1

theorem restr_website_hit {α : Type} (ss : Scoped) (root : CfgPath → α × Option Err)
    (zero : α) (msg : String) (r : String) (p : CfgPath)
    (hok : cfgpathNew r = .ok p) (hw : 0 < ss.WebsiteID)
    (v : α) (err : Option Err) (hroot : root (bindWebsite p ss.WebsiteID) = (v, err))
    (hcond : err = none ∨ ∃ e, err = some e ∧ e.isNotFound = false) :
    ss.resolveWith root zero msg r [Scope.Website] =
      (v, NewHash Scope.Website ss.WebsiteID, err) := by
  have hret : (!(isNotFoundO err) || err.isNone) = true := by
    rcases hcond with h | ⟨e, he, hfe⟩
    · subst h
      simp [isNotFoundO]
    · subst he
      simp [isNotFoundO, hfe]
  exact resolve_website_returns ss root zero msg r [Scope.Website] p hok
    (Or.inl (isAllowedStore_website_restr ss)) (isAllowedWebsite_website_restr ss hw)
    v err hroot hret

theorem restr_website_miss {α : Type} (ss : Scoped) (root : CfgPath → α × Option Err)
    (zero : α) (msg : String) (r : String) (p : CfgPath)
    (hok : cfgpathNew r = .ok p)
    (hmiss : 0 < ss.WebsiteID → ∃ v2 e2,
      root (bindWebsite p ss.WebsiteID) = (v2, some e2) ∧ e2.isNotFound = true) :
    ss.resolveWith root zero msg r [Scope.Website] =
      ((root { p with ScopeHash := DefaultHash }).1, DefaultHash,
       (root { p with ScopeHash := DefaultHash }).2) := by
  by_cases hw : 0 < ss.WebsiteID
  · obtain ⟨v2, e2, hroot2, hnf2⟩ := hmiss hw
    exact resolve_default_step ss root zero msg r [Scope.Website] p hok
      (Or.inl (isAllowedStore_website_restr ss)) (Or.inr ⟨v2, e2, hroot2, hnf2⟩)
  · exact resolve_default_step ss root zero msg r [Scope.Website] p hok
      (Or.inl (isAllowedStore_website_restr ss))
      (Or.inl (isAllowedWebsite_nonpos ss hw _))

/-- C3: for every Store-scoped resolver (StoreID above 0), supplying the Website scope
restriction to a typed accessor skips the Store attempt entirely: when WebsiteID is above
0 and the Website-bound lookup yields a found result (no error or a non-NotFound error)
that result is returned with the Website hash; when the Website step yields NotFound or
WebsiteID is not positive, resolution lands on the Default-bound lookup with DefaultHash;
and any two root Getters agreeing at the Website-bound and Default-bound paths produce
the same outcome, so the root Getter is never called with a Store-bound path. Stated for
each of the six typed accessors. -/
theorem scoped_website_restriction_skips_store
    (ss : Scoped) (r : String) (p : CfgPath)
    (hok : cfgpathNew r = .ok p) (_hst : 0 < ss.StoreID) :
    ((∀ v err, 0 < ss.WebsiteID →
        ss.Root.byteF (bindWebsite p ss.WebsiteID) = (v, err) →
        (err = none ∨ ∃ e, err = some e ∧ e.isNotFound = false) →
        ss.getByte r [Scope.Website] = (v, NewHash Scope.Website ss.WebsiteID, err)) ∧
     ((0 < ss.WebsiteID → ∃ v2 e2,
        ss.Root.byteF (bindWebsite p ss.WebsiteID) = (v2, some e2) ∧
        e2.isNotFound = true) →
      ss.getByte r [Scope.Website] =
        ((ss.Root.byteF { p with ScopeHash := DefaultHash }).1, DefaultHash,
         (ss.Root.byteF { p with ScopeHash := DefaultHash }).2)) ∧
     (∀ g2 : Getter,
        g2.byteF (bindWebsite p ss.WebsiteID) =
          ss.Root.byteF (bindWebsite p ss.WebsiteID) →
        g2.byteF { p with ScopeHash := DefaultHash } =
          ss.Root.byteF { p with ScopeHash := DefaultHash } →
        Scoped.getByte { ss with Root := g2 } r [Scope.Website] =
          ss.getByte r [Scope.Website])) ∧
    ((∀ v err, 0 < ss.WebsiteID →
        ss.Root.stringF (bindWebsite p ss.WebsiteID) = (v, err) →
        (err = none ∨ ∃ e, err = some e ∧ e.isNotFound = false) →
        ss.getString r [Scope.Website] = (v, NewHash Scope.Website ss.WebsiteID, err)) ∧
     ((0 < ss.WebsiteID → ∃ v2 e2,
        ss.Root.stringF (bindWebsite p ss.WebsiteID) = (v2, some e2) ∧
        e2.isNotFound = true) →
      ss.getString r [Scope.Website] =
        ((ss.Root.stringF { p with ScopeHash := DefaultHash }).1, DefaultHash,
         (ss.Root.stringF { p with ScopeHash := DefaultHash }).2)) ∧
     (∀ g2 : Getter,
        g2.stringF (bindWebsite p ss.WebsiteID) =
          ss.Root.stringF (bindWebsite p ss.WebsiteID) →
        g2.stringF { p with ScopeHash := DefaultHash } =
          ss.Root.stringF { p with ScopeHash := DefaultHash } →
        Scoped.getString { ss with Root := g2 } r [Scope.Website] =
          ss.getString r [Scope.Website])) ∧
    ((∀ v err, 0 < ss.WebsiteID →
        ss.Root.boolF (bindWebsite p ss.WebsiteID) = (v, err) →
        (err = none ∨ ∃ e, err = some e ∧ e.isNotFound = false) →
        ss.getBool r [Scope.Website] = (v, NewHash Scope.Website ss.WebsiteID, err)) ∧
     ((0 < ss.WebsiteID → ∃ v2 e2,
        ss.Root.boolF (bindWebsite p ss.WebsiteID) = (v2, some e2) ∧
        e2.isNotFound = true) →
      ss.getBool r [Scope.Website] =
        ((ss.Root.boolF { p with ScopeHash := DefaultHash }).1, DefaultHash,
         (ss.Root.boolF { p with ScopeHash := DefaultHash }).2)) ∧
     (∀ g2 : Getter,
        g2.boolF (bindWebsite p ss.WebsiteID) =
          ss.Root.boolF (bindWebsite p ss.WebsiteID) →
        g2.boolF { p with ScopeHash := DefaultHash } =
          ss.Root.boolF { p with ScopeHash := DefaultHash } →
        Scoped.getBool { ss with Root := g2 } r [Scope.Website] =
          ss.getBool r [Scope.Website])) ∧
    ((∀ v err, 0 < ss.WebsiteID →
        ss.Root.intF (bindWebsite p ss.WebsiteID) = (v, err) →
        (err = none ∨ ∃ e, err = some e ∧ e.isNotFound = false) →
        ss.getInt r [Scope.Website] = (v, NewHash Scope.Website ss.WebsiteID, err)) ∧
     ((0 < ss.WebsiteID → ∃ v2 e2,
        ss.Root.intF (bindWebsite p ss.WebsiteID) = (v2, some e2) ∧
        e2.isNotFound = true) →
      ss.getInt r [Scope.Website] =
        ((ss.Root.intF { p with ScopeHash := DefaultHash }).1, DefaultHash,
         (ss.Root.intF { p with ScopeHash := DefaultHash }).2)) ∧
     (∀ g2 : Getter,
        g2.intF (bindWebsite p ss.WebsiteID) =
          ss.Root.intF (bindWebsite p ss.WebsiteID) →
        g2.intF { p with ScopeHash := DefaultHash } =
          ss.Root.intF { p with ScopeHash := DefaultHash } →
        Scoped.getInt { ss with Root := g2 } r [Scope.Website] =
          ss.getInt r [Scope.Website])) ∧
    ((∀ v err, 0 < ss.WebsiteID →
        ss.Root.float64F (bindWebsite p ss.WebsiteID) = (v, err) →
        (err = none ∨ ∃ e, err = some e ∧ e.isNotFound = false) →
        ss.getFloat64 r [Scope.Website] =
          (v, NewHash Scope.Website ss.WebsiteID, err)) ∧
     ((0 < ss.WebsiteID → ∃ v2 e2,
        ss.Root.float64F (bindWebsite p ss.WebsiteID) = (v2, some e2) ∧
        e2.isNotFound = true) →
      ss.getFloat64 r [Scope.Website] =
        ((ss.Root.float64F { p with ScopeHash := DefaultHash }).1, DefaultHash,
         (ss.Root.float64F { p with ScopeHash := DefaultHash }).2)) ∧
     (∀ g2 : Getter,
        g2.float64F (bindWebsite p ss.WebsiteID) =
          ss.Root.float64F (bindWebsite p ss.WebsiteID) →
        g2.float64F { p with ScopeHash := DefaultHash } =
          ss.Root.float64F { p with ScopeHash := DefaultHash } →
        Scoped.getFloat64 { ss with Root := g2 } r [Scope.Website] =
          ss.getFloat64 r [Scope.Website])) ∧
    ((∀ v err, 0 < ss.WebsiteID →
        ss.Root.timeF (bindWebsite p ss.WebsiteID) = (v, err) →
        (err = none ∨ ∃ e, err = some e ∧ e.isNotFound = false) →
        ss.getTime r [Scope.Website] = (v, NewHash Scope.Website ss.WebsiteID, err)) ∧
     ((0 < ss.WebsiteID → ∃ v2 e2,
        ss.Root.timeF (bindWebsite p ss.WebsiteID) = (v2, some e2) ∧
        e2.isNotFound = true) →
      ss.getTime r [Scope.Website] =
        ((ss.Root.timeF { p with ScopeHash := DefaultHash }).1, DefaultHash,
         (ss.Root.timeF { p with ScopeHash := DefaultHash }).2)) ∧
     (∀ g2 : Getter,
        g2.timeF (bindWebsite p ss.WebsiteID) =
          ss.Root.timeF (bindWebsite p ss.WebsiteID) →
        g2.timeF { p with ScopeHash := DefaultHash } =
          ss.Root.timeF { p with ScopeHash := DefaultHash } →
        Scoped.getTime { ss with Root := g2 } r [Scope.Website] =
          ss.getTime r [Scope.Website])) := by
  refine ⟨⟨?_, ?_, ?_⟩, ⟨?_, ?_, ?_⟩, ⟨?_, ?_, ?_⟩, ⟨?_, ?_, ?_⟩, ⟨?_, ?_, ?_⟩,
    ⟨?_, ?_, ?_⟩⟩
  · intro v err hw hroot hcond
    exact restr_website_hit ss ss.Root.byteF [] "[config] Byte. Route %q" r p hok hw
      v err hroot hcond
  · intro hmiss
    exact restr_website_miss ss ss.Root.byteF [] "[config] Byte. Route %q" r p hok hmiss
  · intro g2 h1 h2
    exact resolve_no_store_invariance { ss with Root := g2 } ss.Root.byteF g2.byteF
      [] "[config] Byte. Route %q" r [Scope.Website] p hok
      (isAllowedStore_website_restr _) h1 h2
  · intro v err hw hroot hcond
    exact restr_website_hit ss ss.Root.stringF "" "[config] String. Route %q" r p hok hw
      v err hroot hcond
  · intro hmiss
    exact restr_website_miss ss ss.Root.stringF "" "[config] String. Route %q" r p hok
      hmiss
  · intro g2 h1 h2
    exact resolve_no_store_invariance { ss with Root := g2 } ss.Root.stringF g2.stringF
      "" "[config] String. Route %q" r [Scope.Website] p hok
      (isAllowedStore_website_restr _) h1 h2
  · intro v err hw hroot hcond
    exact restr_website_hit ss ss.Root.boolF false "[config] Bool. Route %q" r p hok hw
      v err hroot hcond
  · intro hmiss
    exact restr_website_miss ss ss.Root.boolF false "[config] Bool. Route %q" r p hok
      hmiss
  · intro g2 h1 h2
    exact resolve_no_store_invariance { ss with Root := g2 } ss.Root.boolF g2.boolF
      false "[config] Bool. Route %q" r [Scope.Website] p hok
      (isAllowedStore_website_restr _) h1 h2
  · intro v err hw hroot hcond
    exact restr_website_hit ss ss.Root.intF 0 "[config] Int. Route %q" r p hok hw
      v err hroot hcond
  · intro hmiss
    exact restr_website_miss ss ss.Root.intF 0 "[config] Int. Route %q" r p hok hmiss
  · intro g2 h1 h2
    exact resolve_no_store_invariance { ss with Root := g2 } ss.Root.intF g2.intF
      0 "[config] Int. Route %q" r [Scope.Website] p hok
      (isAllowedStore_website_restr _) h1 h2
  · intro v err hw hroot hcond
    exact restr_website_hit ss ss.Root.float64F { bits := 0 }
      "[config] Float64. Route %q" r p hok hw v err hroot hcond
  · intro hmiss
    exact restr_website_miss ss ss.Root.float64F { bits := 0 }
      "[config] Float64. Route %q" r p hok hmiss
  · intro g2 h1 h2
    exact resolve_no_store_invariance { ss with Root := g2 } ss.Root.float64F
      g2.float64F { bits := 0 } "[config] Float64. Route %q" r [Scope.Website] p hok
      (isAllowedStore_website_restr _) h1 h2
  · intro v err hw hroot hcond
    exact restr_website_hit ss ss.Root.timeF { sec := 0, nsec := 0 }
      "[config] Time. Route %q" r p hok hw v err hroot hcond
  · intro hmiss
    exact restr_website_miss ss ss.Root.timeF { sec := 0, nsec := 0 }
      "[config] Time. Route %q" r p hok hmiss
  · intro g2 h1 h2
    exact resolve_no_store_invariance { ss with Root := g2 } ss.Root.timeF g2.timeF
      { sec := 0, nsec := 0 } "[config] Time. Route %q" r [Scope.Website] p hok
      (isAllowedStore_website_restr _) h1 h2

/-- Witness for C3: over witGetter, which has no Website value, the restricted String
lookup lands on the Default value with DefaultHash, never touching the store-bound
entry. -/
theorem scoped_website_restriction_witness :
    Scoped.getString { Root := witGetter, WebsiteID := 1, StoreID := 1 } "aa/bb/cc"
      [Scope.Website] = ("dv", DefaultHash, none) := by
  have h := (scoped_website_restriction_skips_store
    { Root := witGetter, WebsiteID := 1, StoreID := 1 } "aa/bb/cc"
    { route := "aa/bb/cc", ScopeHash := DefaultHash } (by decide) (by decide)).2.1.2.1
    (fun _ => ⟨"", Err.notFound "nf", by decide, by decide⟩)
  exact h.trans (by decide)

/-- Modelled from the spec: the per-collaborator scoped configuration snapshot (spec
sect. 3): the scope Hash it was resolved for, a validity flag (standing for the validity
flag or last-error of the spec) and a numeric stand-in for the collaborator-specific
fields; the ctxcors scopedConfig definition file is absent from the sources. -/
structure scopedConfig where
  scopeHash : Nat
  valid : Bool
  tag : Nat
deriving DecidableEq

/-- Modelled from the spec: scopedConfig.IsValid, the validity test used throughout
service.go; the validity flag. -/
def scopedConfig.IsValid (sc : scopedConfig) : Bool := sc.valid

/-- The zero value of scopedConfig (var empty scopedConfig, service.go line 216). -/
def emptyScopedConfig : scopedConfig := { scopeHash := 0, valid := false, tag := 0 }

/-- Modelled from the spec: a config.ScopedGetter as seen by ctxcors service.go, which
consults only its Scope() pair (service.go line 191). -/
structure ScopedGetterStub where
  scp : Nat
  id : Int
deriving DecidableEq

/-- Modelled from the spec: the effect of one ctxcors functional option (options.go is
absent from the sources): set the option error (AddError of service.go lines 113-121
keeps an already-set error), install or overwrite a scoped cache entry, or overwrite the
default entry (WithDefaultConfig, spec sect. 4.6). -/
inductive OptionAct where
  | setError (e : Err)
  | putScoped (h : Nat) (sc : scopedConfig)
  | putDefault (sc : scopedConfig)
deriving DecidableEq

/-- ctxcors Service of service.go lines 43-65: the option error, the optional scope
option function (modelled as producing OptionAct values), the default-scope cache entry
and the Hash-keyed cache map, modelled as an association list; the mutex of the source
serializes access and the embedding is that serialized behaviour. -/
structure Service where
  optionError : Option Err
  scpOptionFnc : Option (Option ScopedGetterStub → List OptionAct)
  defaultScopeCache : scopedConfig
  scopeCache : List (Nat × scopedConfig)

def mapLookup (m : List (Nat × scopedConfig)) (h : Nat) : Option scopedConfig :=
  (m.find? (fun e => e.1 == h)).map (fun e => e.2)

def mapInsert (m : List (Nat × scopedConfig)) (h : Nat) (sc : scopedConfig) :
    List (Nat × scopedConfig) :=
  (h, sc) :: m.filter (fun e => !(e.1 == h))

def applyOption (s : Service) (o : OptionAct) : Service :=
  match o with
  | .setError e => if s.optionError.isNone then { s with optionError := some e } else s
  | .putScoped h sc => { s with scopeCache := mapInsert s.scopeCache h sc }
  | .putDefault sc => { s with defaultScopeCache := sc }

/-- Service.Options of service.go lines 91-108: apply every option, return the option
error when one is set, else reject any cached hash whose unpacked scope lies above
Website with a NotSupported error (the offending hash in the Go message depends on map
iteration order and is omitted from the message). -/
def Options (s : Service) (opts : List OptionAct) : Service × Option Err :=
  let s := opts.foldl applyOption s
  match s.optionError with
  | some e => (s, some e)
  | none =>
    if s.scopeCache.any (fun e => Scope.Website < (hashUnpack e.1).1) then
      (s, some (Err.notSupported "[ctxcors] Service does not support this scope"))
    else (s, none)

/-- Service.getScopedConfig of service.go lines 244-264: a map read under the read lock;
the logger-copying block of the source touches only the log field, which is not part of
the model. -/
def getScopedConfig (s : Service) (h : Nat) : Option scopedConfig :=
  mapLookup s.scopeCache h

/-- errConfigNotFound of ctxcors (its definition file is absent from the sources; spec
sect. 4.6 step 5 prescribes a ConfigNotFound error, taxonomy NotFound). -/
def errConfigNotFound : Err := Err.notFound "[ctxcors] Config Not Found"

/-- The NotValid error of service.go line 223 for a cached but invalid entry. -/
def errScopedConfigNotValid : Err := Err.notValid "[ctxcors] Scoped Config not valid"

/-- Service.getConfigByScopeID of service.go lines 215-240. -/
def getConfigByScopeID (s : Service) (fallback : Bool) (hash : Nat) :
    scopedConfig × Option Err :=
  match getScopedConfig s hash with
  | some scpCfg =>
    if scpCfg.IsValid then (scpCfg, none)
    else (emptyScopedConfig, some errScopedConfigNotValid)
  | none =>
    if fallback then
      (s.defaultScopeCache,
        if s.defaultScopeCache.IsValid then none else some errConfigNotFound)
    else (emptyScopedConfig, some errConfigNotFound)

/-- The hash computed by configByScopedGetter (service.go lines 189-192): DefaultHash
when no scoped getter is supplied, else NewHash of the getter Scope() pair. -/
def sgHash (sg : Option ScopedGetterStub) : Nat :=
  match sg with
  | none => DefaultHash
  | some g => NewHash g.scp g.id

/-- Service.configByScopedGetter of service.go lines 187-213; nil tests become isNone
and the threaded Service value stands for the in-place mutation by Options. -/
def configByScopedGetter (s : Service) (sg : Option ScopedGetterStub) :
    scopedConfig × Option Err :=
  let h := sgHash sg
  if ((s.scpOptionFnc.isNone || sg.isNone) && (h == DefaultHash) &&
      s.defaultScopeCache.IsValid) then
    (s.defaultScopeCache, none)
  else
    let scErr := getConfigByScopeID s false h
    if scErr.2 = none then (scErr.1, none)
    else
      match s.scpOptionFnc with
      | some fnc =>
        let sErr2 := Options s (fnc sg)
        match sErr2.2 with
        | some e =>
          (emptyScopedConfig, some (Err.wrap "[jwtauth] Options by scpOptionFnc" e))
        | none => getConfigByScopeID sErr2.1 true h
      | none => getConfigByScopeID s true h

/-- Concrete service refuting the C9 fast-path claim: a scope option function is
configured, and the cache map holds an invalid entry under DefaultHash. -/
def c9Service : Service where
  optionError := none
  scpOptionFnc := some (fun _ => [])
  defaultScopeCache := { scopeHash := DefaultHash, valid := true, tag := 7 }
  scopeCache := [(DefaultHash, { scopeHash := DefaultHash, valid := false, tag := 9 })]

/-- A scoped getter whose Scope() pair is (Default, 0), hashing to DefaultHash. -/
def c9Getter : ScopedGetterStub := { scp := Scope.Default, id := 0 }

/-- C9 counterexample: with a scope option function configured and a Default-scoped
getter supplied, the hash is DefaultHash and the default entry is valid, yet
configByScopedGetter does not return the default entry immediately with no error: the
per-hash map lookup runs first and surfaces the invalid DefaultHash map entry as a
NotValid error. -/
theorem ctxcors_fast_path_counterexample :
    sgHash (some c9Getter) = DefaultHash ∧
    c9Service.defaultScopeCache.IsValid = true ∧
    configByScopedGetter c9Service (some c9Getter) =
      (emptyScopedConfig, some errScopedConfigNotValid) ∧
    ¬ configByScopedGetter c9Service (some c9Getter) =
      (c9Service.defaultScopeCache, none) := by
  decide

/-- C9 amended: the fast path of configByScopedGetter applies only when, in addition to
the hash being DefaultHash and the default entry being valid, no scope option function
is configured or no scoped getter is supplied; under those conditions the default entry
is returned immediately with no error, for every cache-map content, before any per-hash
map lookup or option-function invocation. -/
theorem ctxcors_fast_path_amended (s : Service) (sg : Option ScopedGetterStub)
    (hfnc : s.scpOptionFnc.isNone = true ∨ sg.isNone = true)
    (hh : sgHash sg = DefaultHash)
    (hvalid : s.defaultScopeCache.IsValid = true) :
    configByScopedGetter s sg = (s.defaultScopeCache, none) := by
  have hcond : ((s.scpOptionFnc.isNone || sg.isNone) && (sgHash sg == DefaultHash) &&
      s.defaultScopeCache.IsValid) = true := by
    rcases hfnc with h | h <;> simp [h, hh, hvalid]
  simp [configByScopedGetter, hcond]

/-- Witness for the amended C9 at a concrete service with no option function. -/
theorem ctxcors_fast_path_amended_witness :
    configByScopedGetter
      { optionError := none, scpOptionFnc := none,
        defaultScopeCache := { scopeHash := DefaultHash, valid := true, tag := 3 },
        scopeCache := [] } (some c9Getter) =
      ({ scopeHash := DefaultHash, valid := true, tag := 3 }, none) :=
  ctxcors_fast_path_amended
    { optionError := none, scpOptionFnc := none,
      defaultScopeCache := { scopeHash := DefaultHash, valid := true, tag := 3 },
      scopeCache := [] } (some c9Getter) (Or.inl (by decide)) (by decide) (by decide)

/-- C10: a scoped-config cache with only the Default entry populated and valid serves
any hash lookup by falling back to the default entry without error, both at the
getConfigByScopeID level (the point reached after the lazy population hook, when
configured, failed to produce an entry) and end to end through configByScopedGetter with
no hook, and end to end with a hook that completes without error yet leaves the hash
unpopulated; and once a specific-scope entry is populated and valid, lookups for its
exact hash return that entry in preference to the default entry. -/
theorem ctxcors_cache_fallback_and_precedence :
    (∀ (s : Service) (h : Nat),
      mapLookup s.scopeCache h = none → s.defaultScopeCache.IsValid = true →
      getConfigByScopeID s true h = (s.defaultScopeCache, none)) ∧
    (∀ (s : Service) (fb : Bool) (h : Nat) (sc : scopedConfig),
      mapLookup s.scopeCache h = some sc → sc.IsValid = true →
      getConfigByScopeID s fb h = (sc, none)) ∧
    (∀ (s : Service) (sg : Option ScopedGetterStub),
      s.scpOptionFnc = none → mapLookup s.scopeCache (sgHash sg) = none →
      s.defaultScopeCache.IsValid = true →
      configByScopedGetter s sg = (s.defaultScopeCache, none)) ∧
    (∀ (s : Service) (sg : Option ScopedGetterStub) (sc : scopedConfig),
      s.scpOptionFnc = none → ¬ sgHash sg = DefaultHash →
      mapLookup s.scopeCache (sgHash sg) = some sc → sc.IsValid = true →
      configByScopedGetter s sg = (sc, none)) ∧
    (∀ (s : Service) (sg : Option ScopedGetterStub)
      (fnc : Option ScopedGetterStub → List OptionAct),
      s.scpOptionFnc = some fnc → sg.isNone = false →
      mapLookup s.scopeCache (sgHash sg) = none →
      (Options s (fnc sg)).2 = none →
      mapLookup (Options s (fnc sg)).1.scopeCache (sgHash sg) = none →
      (Options s (fnc sg)).1.defaultScopeCache.IsValid = true →
      configByScopedGetter s sg = ((Options s (fnc sg)).1.defaultScopeCache, none)) := by
  refine ⟨?_, ?_, ?_, ?_, ?_⟩
  · intro s h hmap hvalid
    simp [getConfigByScopeID, getScopedConfig, hmap, hvalid]
  · intro s fb h sc hmap hvalid
    simp [getConfigByScopeID, getScopedConfig, hmap, scopedConfig.IsValid] at *
    simp [hmap, hvalid, scopedConfig.IsValid]
  · intro s sg hfnc hmap hvalid
    by_cases hcond : ((s.scpOptionFnc.isNone || sg.isNone) &&
        (sgHash sg == DefaultHash) && s.defaultScopeCache.IsValid) = true
    · simp [configByScopedGetter, hcond]
    · have h1 : getConfigByScopeID s false (sgHash sg) =
          (emptyScopedConfig, some errConfigNotFound) := by
        simp [getConfigByScopeID, getScopedConfig, hmap]
      have h2 : getConfigByScopeID s true (sgHash sg) = (s.defaultScopeCache, none) := by
        simp [getConfigByScopeID, getScopedConfig, hmap, hvalid]
      simp [configByScopedGetter, hcond, h1, h2, hfnc, errConfigNotFound]
  · intro s sg sc hfnc hne hmap hvalid
    have hcond : ((s.scpOptionFnc.isNone || sg.isNone) &&
        (sgHash sg == DefaultHash) && s.defaultScopeCache.IsValid) = false := by
      simp [beq_eq_false_iff_ne, hne]
    have h1 : getConfigByScopeID s false (sgHash sg) = (sc, none) := by
      simp [getConfigByScopeID, getScopedConfig, hmap, hvalid, scopedConfig.IsValid] at *
      simp [hmap, hvalid, scopedConfig.IsValid]
    simp [configByScopedGetter, hcond, h1]
  · intro s sg fnc hfnc hsome hmap hopt hmap2 hvalid
    have hcond : ((s.scpOptionFnc.isNone || sg.isNone) &&
        (sgHash sg == DefaultHash) && s.defaultScopeCache.IsValid) = false := by
      simp [hfnc, hsome]
    have h1 : getConfigByScopeID s false (sgHash sg) =
        (emptyScopedConfig, some errConfigNotFound) := by
      simp [getConfigByScopeID, getScopedConfig, hmap]
    have h2 : getConfigByScopeID (Options s (fnc sg)).1 true (sgHash sg) =
        ((Options s (fnc sg)).1.defaultScopeCache, none) := by
      simp [getConfigByScopeID, getScopedConfig, hmap2, hvalid]
    simp [configByScopedGetter, hcond, h1, hfnc, hopt, h2, errConfigNotFound]
    intro hsg
    subst hsg
    simp at hsome

/-- Witness for C10 at concrete services: fallback from a Website(2) hash to the default
entry with no error, and precedence of a populated valid Website(2) entry. -/
theorem ctxcors_cache_fallback_witness :
    configByScopedGetter
      { optionError := none, scpOptionFnc := none,
        defaultScopeCache := { scopeHash := DefaultHash, valid := true, tag := 11 },
        scopeCache := [] } (some { scp := Scope.Website, id := 2 }) =
      ({ scopeHash := DefaultHash, valid := true, tag := 11 }, none) ∧
    configByScopedGetter
      { optionError := none, scpOptionFnc := none,
        defaultScopeCache := { scopeHash := DefaultHash, valid := true, tag := 11 },
        scopeCache := [(NewHash Scope.Website 2,
          { scopeHash := NewHash Scope.Website 2, valid := true, tag := 13 })] }
      (some { scp := Scope.Website, id := 2 }) =
      ({ scopeHash := NewHash Scope.Website 2, valid := true, tag := 13 }, none) :=
  ⟨ctxcors_cache_fallback_and_precedence.2.2.1 _ _ rfl (by decide) (by decide),
   ctxcors_cache_fallback_and_precedence.2.2.2.1 _ _ _ rfl (by decide) (by decide)
     (by decide)⟩
